import Mathlib

/-!
Verification of the crawl4ai-service / proxy-service repository.

This file shallowly embeds the result-normalization and caching pipeline of
`src/crawl4ai-service/main.py` and the text compressor of
`src/proxy-service/compressor.py`, and proves or refutes the frozen claims
about them.

Python values that flow through the normalizer (executor output, cached JSON
blobs) are modelled by the inductive type `PyVal`.  String contents are kept
verbatim; Python's `str()` / `repr()` rendering of containers is modelled
without intra-string escaping, which is exact for every value exercised here.
-/

/-- A dynamically-typed Python value as it appears in executor results and
cached JSON: `None`, booleans, integers, strings, lists and string-keyed
dictionaries. -/
inductive PyVal where
  | none
  | bool (b : Bool)
  | int (n : Int)
  | str (s : String)
  | list (xs : List PyVal)
  | dict (entries : List (String × PyVal))

mutual

/-- Python `repr(v)`.  Strings render quoted; containers recurse with `repr`
on their elements (escaping inside strings is not modelled). -/
def pyRepr : PyVal → String
  | .none => "None"
  | .bool true => "True"
  | .bool false => "False"
  | .int n => toString n
  | .str s => "\x27" ++ s ++ "\x27"
  | .list xs => "[" ++ pyReprSeq xs ++ "]"
  | .dict es => "\x7b" ++ pyReprEntries es ++ "\x7d"

/-- Comma-separated `repr`s of the elements of a Python list. -/
def pyReprSeq : List PyVal → String
  | [] => ""
  | [x] => pyRepr x
  | x :: rest => pyRepr x ++ ", " ++ pyReprSeq rest

/-- Comma-separated `'key': repr(value)` renderings of a Python dict. -/
def pyReprEntries : List (String × PyVal) → String
  | [] => ""
  | [(k, v)] => "\x27" ++ k ++ "\x27: " ++ pyRepr v
  | (k, v) :: rest => "\x27" ++ k ++ "\x27: " ++ pyRepr v ++ ", " ++ pyReprEntries rest

end

/-- Python `str(v)`: identical to `repr(v)` except on strings, which pass
through unquoted. -/
def pyStr : PyVal → String
  | .str s => s
  | v => pyRepr v

/-- Python truthiness: `None`, `False`, `0`, `""`, `[]`, `{}` are falsy. -/
def PyVal.truthy : PyVal → Bool
  | .none => false
  | .bool b => b
  | .int n => n != 0
  | .str s => !s.isEmpty
  | .list xs => !xs.isEmpty
  | .dict es => !es.isEmpty

/-- Is this value a Python `str`? -/
def PyVal.isStr : PyVal → Bool
  | .str _ => true
  | _ => false

/-- Is this value a Python `dict`? -/
def PyVal.isDict : PyVal → Bool
  | .dict _ => true
  | _ => false

/-- Python `d.get(k)`: the first binding of `k`, or `None` when absent. -/
def dictGet (es : List (String × PyVal)) (k : String) : PyVal :=
  match es.find? (fun p => p.1 == k) with
  | Option.some p => p.2
  | Option.none => .none

/-- Python `d.get(k, default)`: the first binding of `k`, or `default` when
the key is absent (key presence, not truthiness, decides). -/
def dictGetD (es : List (String × PyVal)) (k : String) (d : PyVal) : PyVal :=
  match es.find? (fun p => p.1 == k) with
  | Option.some p => p.2
  | Option.none => d

/-- Python `a or b`: `a` when truthy, otherwise `b`. -/
def pyOr (a b : PyVal) : PyVal :=
  if a.truthy then a else b

/-- `link.get("href") or link.get("url") or link.get("link") or
link.get("src")` — the candidate-key chain shared by all three link-coercion
sites in `main.py`. -/
def linkUrlChain (es : List (String × PyVal)) : PyVal :=
  pyOr (dictGet es "href")
    (pyOr (dictGet es "url")
      (pyOr (dictGet es "link") (dictGet es "src")))

/-- `CrawlResponse.convert_links_to_strings` per-element body
(main.py lines 73–86): dicts go through the candidate-key chain with a
textual fallback, strings pass through, everything else is `str()`ed. -/
def validatorCoerce (link : PyVal) : String :=
  match link with
  | .dict es =>
    let url := linkUrlChain es
    if url.truthy then pyStr url else pyStr link
  | .str s => s
  | v => pyStr v

/-- `convert_links_to_strings` (main.py lines 64–87), the pydantic
field validator applied to `links` on every `CrawlResponse` construction:
`None` and non-list inputs become `[]`, list elements are coerced. -/
def convert_links_to_strings (v : PyVal) : List String :=
  match v with
  | .none => []
  | .list xs => xs.map validatorCoerce
  | _ => []

/-- Fresh-crawl per-link coercion (main.py lines 269–282); textually the
same algorithm as `validatorCoerce`. -/
def freshCoerce (link : PyVal) : String :=
  match link with
  | .dict es =>
    let url := linkUrlChain es
    if url.truthy then pyStr url else pyStr link
  | .str s => s
  | v => pyStr v

/-- Final-pass per-link coercion (main.py lines 313–318): dict branch as in
`freshCoerce`, and a bare `str(item)` for everything else. -/
def finalCoerce (item : PyVal) : String :=
  match item with
  | .dict es =>
    let url := linkUrlChain es
    if url.truthy then pyStr url else pyStr item
  | v => pyStr v

/-- Cached-path per-link re-coercion (main.py lines 198–203): dict branch as
in `freshCoerce`, and a bare `str(link)` for everything else. -/
def cachedCoerce (link : PyVal) : String :=
  match link with
  | .dict es =>
    let url := linkUrlChain es
    if url.truthy then pyStr url else pyStr link
  | v => pyStr v

theorem validatorCoerce_eq_freshCoerce : validatorCoerce = freshCoerce := rfl

theorem cachedCoerce_eq_freshCoerce : cachedCoerce = freshCoerce := by
  funext link
  cases link <;> rfl

theorem finalCoerce_str (s : String) : finalCoerce (.str s) = s := rfl

/-! ## Fresh-path normalization (perform_crawl, main.py lines 250–347) -/

/-- `x if isinstance(x, dict) else {}` (main.py lines 263, 285, 304). -/
def asDict : PyVal → List (String × PyVal)
  | .dict es => es
  | _ => []

/-- Python `list(x)` for `x` a Python list.  The executor's link/media
partitions are lists; other iterable shapes are out of the modelled scope. -/
def asPyList : PyVal → List PyVal
  | .list xs => xs
  | _ => []

/-- `links_dict.get("internal", []) or []` (main.py line 264) and its
"external" twin (line 265). -/
def linkPartition (links : PyVal) (k : String) : List PyVal :=
  asPyList (pyOr (dictGetD (asDict links) k (.list [])) (.list []))

/-- `all_links` (main.py lines 266–282): internal partition concatenated with
the external partition, each element coerced by `freshCoerce`. -/
def all_links (links : PyVal) : List String :=
  let internal_links := linkPartition links "internal"
  let external_links := linkPartition links "external"
  (internal_links ++ external_links).map freshCoerce

/-- `final_links_list` (main.py lines 312–321): a second coercion pass over
`all_links` (whose elements are already strings) followed by the
`[str(l) for l in final_links_list]` safety pass. -/
def final_links_list (links : PyVal) : List String :=
  ((all_links links).map (fun s => finalCoerce (.str s))).map
    (fun l => pyStr (.str l))

theorem final_links_list_eq_all_links (links : PyVal) :
    final_links_list links = all_links links := by
  simp [final_links_list, finalCoerce, pyStr]

/-- Media per-entry coercion (main.py lines 291–301):
`x.get("src", x.get("url", str(x)))` for dicts — key presence, not
truthiness, selects, and the selected value is NOT stringified — and
`str(x)` for everything else.  Shared verbatim by images and videos. -/
def coerceMediaEntry (v : PyVal) : PyVal :=
  match v with
  | .dict es => dictGetD es "src" (dictGetD es "url" (.str (pyStr v)))
  | x => .str (pyStr x)

/-- `media_dict.get("images", [])` / `.get("videos", [])` then the coercion
loop (main.py lines 285–301). -/
def mediaUrls (media : PyVal) (k : String) : List PyVal :=
  (asPyList (dictGetD (asDict media) k (.list []))).map coerceMediaEntry

/-! ## Response construction and the cache round trip -/

/-- The `response_data` dict built on a successful fresh crawl
(main.py lines 325–342) and stored verbatim in the cache; also the shape of
a cache entry read back (`cached_result`), whose `links` may carry
pre-normalization shapes from an older schema version.  Media entries are
kept as `PyVal` because the source appends un-stringified dict values. -/
structure CachedResult where
  url : String
  markdown : String
  html : String
  links : List PyVal
  images : List PyVal
  videos : List PyVal
  metadata : PyVal
  screenshot : Option String
  timestamp : String

/-- A constructed `CrawlResponse` (after the pydantic `links` validator has
run). -/
structure CrawlResponse where
  url : String
  markdown : String
  html : String
  links : List String
  images : List PyVal
  videos : List PyVal
  metadata : PyVal
  screenshot : Option String
  timestamp : String

/-- `CrawlResponse(**data)`: the `links` field validator
`convert_links_to_strings` runs; every other field passes through. -/
def mkCrawlResponse (c : CachedResult) : CrawlResponse :=
  { url := c.url
    markdown := c.markdown
    html := c.html
    links := convert_links_to_strings (.list c.links)
    images := c.images
    videos := c.videos
    metadata := c.metadata
    screenshot := c.screenshot
    timestamp := c.timestamp }

/-- The executor result fields the normalizer consumes.  Markdown / HTML
extraction (main.py lines 252–260, attribute probing on the library object)
is abstracted as the already-extracted strings. -/
structure ExecutorResult where
  success : Bool
  error_message : String
  markdown_content : String
  html_content : String
  links : PyVal
  media : PyVal
  metadata : PyVal
  screenshot : Option String

/-- The request fields of `CrawlRequest` (main.py lines 36–45), with the
model's declared defaults. -/
structure CrawlRequest where
  url : String
  extraction_strategy : String := "auto"
  chunking_strategy : String := "markdown"
  screenshot : Bool := false
  wait_for : Option String := Option.none
  timeout : Nat := 30
  js_code : Option String := Option.none
  css_selector : Option String := Option.none
  word_count_threshold : Nat := 10

/-- `response_data` as built on the fresh (cache-miss) path
(main.py lines 325–342): `utcnow` is `datetime.utcnow().isoformat()` at
normalization time. -/
def build_response_data (req : CrawlRequest) (res : ExecutorResult)
    (utcnow : String) : CachedResult :=
  let metadata_dict := asDict res.metadata
  { url := req.url
    markdown := res.markdown_content
    html := res.html_content
    links := (final_links_list res.links).map PyVal.str
    images := mediaUrls res.media "images"
    videos := mediaUrls res.media "videos"
    metadata := .dict
      [("title", dictGetD metadata_dict "title" (.str "")),
       ("description", dictGetD metadata_dict "description" (.str "")),
       ("keywords", dictGetD metadata_dict "keywords" (.list [])),
       ("language", dictGetD metadata_dict "language" (.str ""))]
    screenshot := if req.screenshot then res.screenshot else Option.none
    timestamp := utcnow }

/-- Cache-hit link re-coercion (main.py lines 196–204): run only when the
stored `links` list is truthy (non-empty), per-element `cachedCoerce`, then
the `[str(l) for l in cached_links]` safety pass. -/
def recoerceCachedLinks (links : List PyVal) : List PyVal :=
  if (PyVal.list links).truthy then
    links.map (fun l => PyVal.str (pyStr (.str (cachedCoerce l))))
  else links

/-- The cache-hit path of `perform_crawl` (main.py lines 192–205): re-coerce
stored links, then construct the `CrawlResponse` from the stored dict.  No
clock is consulted. -/
def perform_crawl_hit (c : CachedResult) : CrawlResponse :=
  mkCrawlResponse { c with links := recoerceCachedLinks c.links }

/-- The cache-miss success path of `perform_crawl` (main.py lines 250–347):
normalize the executor result (timestamping with the current clock reading),
store it, return the constructed response.  The first component is the value
written to the cache. -/
def perform_crawl_miss (req : CrawlRequest) (res : ExecutorResult)
    (utcnow : String) : CachedResult × CrawlResponse :=
  let rd := build_response_data req res utcnow
  (rd, mkCrawlResponse rd)

/-! ## MD5 and the cache fingerprint (generate_cache_key, main.py 175–178)

`hashlib.md5` is embedded in full over byte lists (`Nat` values `< 256`),
with 32-bit words as `Nat` reduced mod `2^32`. -/

/-- UTF-8 encoding of one character, as `str.encode()` produces. -/
def utf8Char (c : Char) : List Nat :=
  let n := c.toNat
  if n < 128 then [n]
  else if n < 2048 then [192 + n / 64, 128 + n % 64]
  else if n < 65536 then [224 + n / 4096, 128 + n / 64 % 64, 128 + n % 64]
  else [240 + n / 262144, 128 + n / 4096 % 64, 128 + n / 64 % 64, 128 + n % 64]

/-- UTF-8 encoding of a string (`key_data.encode()`). -/
def utf8Bytes (s : String) : List Nat :=
  s.data.foldr (fun c acc => utf8Char c ++ acc) []

/-- Left-rotation of a 32-bit word. -/
def rotl32 (x n : Nat) : Nat :=
  ((x <<< n) ||| (x >>> (32 - n))) % 4294967296

/-- MD5 per-round shift amounts. -/
def md5S : List Nat :=
  [7, 12, 17, 22, 7, 12, 17, 22, 7, 12, 17, 22, 7, 12, 17, 22,
   5, 9, 14, 20, 5, 9, 14, 20, 5, 9, 14, 20, 5, 9, 14, 20,
   4, 11, 16, 23, 4, 11, 16, 23, 4, 11, 16, 23, 4, 11, 16, 23,
   6, 10, 15, 21, 6, 10, 15, 21, 6, 10, 15, 21, 6, 10, 15, 21]

/-- MD5 sine-derived round constants. -/
def md5K : List Nat :=
  [0xd76aa478, 0xe8c7b756, 0x242070db, 0xc1bdceee,
   0xf57c0faf, 0x4787c62a, 0xa8304613, 0xfd469501,
   0x698098d8, 0x8b44f7af, 0xffff5bb1, 0x895cd7be,
   0x6b901122, 0xfd987193, 0xa679438e, 0x49b40821,
   0xf61e2562, 0xc040b340, 0x265e5a51, 0xe9b6c7aa,
   0xd62f105d, 0x02441453, 0xd8a1e681, 0xe7d3fbc8,
   0x21e1cde6, 0xc33707d6, 0xf4d50d87, 0x455a14ed,
   0xa9e3e905, 0xfcefa3f8, 0x676f02d9, 0x8d2a4c8a,
   0xfffa3942, 0x8771f681, 0x6d9d6122, 0xfde5380c,
   0xa4beea44, 0x4bdecfa9, 0xf6bb4b60, 0xbebfbc70,
   0x289b7ec6, 0xeaa127fa, 0xd4ef3085, 0x04881d05,
   0xd9d4d039, 0xe6db99e5, 0x1fa27cf8, 0xc4ac5665,
   0xf4292244, 0x432aff97, 0xab9423a7, 0xfc93a039,
   0x655b59c3, 0x8f0ccc92, 0xffeff47d, 0x85845dd1,
   0x6fa87e4f, 0xfe2ce6e0, 0xa3014314, 0x4e0811a1,
   0xf7537e82, 0xbd3af235, 0x2ad7d2bb, 0xeb86d391]

/-- Bitwise complement within 32 bits. -/
def not32 (x : Nat) : Nat := x ^^^ 4294967295

/-- The little-endian 32-bit word at index `g` of a 64-byte chunk. -/
def md5Word (chunk : List Nat) (g : Nat) : Nat :=
  chunk.getD (4 * g) 0 + 256 * chunk.getD (4 * g + 1) 0 +
    65536 * chunk.getD (4 * g + 2) 0 + 16777216 * chunk.getD (4 * g + 3) 0

/-- The MD5 chaining state (four 32-bit words). -/
structure MD5State where
  a : Nat
  b : Nat
  c : Nat
  d : Nat

/-- One of the 64 MD5 rounds on a chunk. -/
def md5Round (chunk : List Nat) (st : MD5State) (i : Nat) : MD5State :=
  let fg : Nat × Nat :=
    if i < 16 then ((st.b &&& st.c) ||| (not32 st.b &&& st.d), i)
    else if i < 32 then ((st.d &&& st.b) ||| (not32 st.d &&& st.c), (5 * i + 1) % 16)
    else if i < 48 then (st.b ^^^ st.c ^^^ st.d, (3 * i + 5) % 16)
    else (st.c ^^^ (st.b ||| not32 st.d), (7 * i) % 16)
  let f := (fg.1 + st.a + md5K.getD i 0 + md5Word chunk fg.2) % 4294967296
  { a := st.d, b := (st.b + rotl32 f (md5S.getD i 0)) % 4294967296,
    c := st.b, d := st.c }

/-- Process one 64-byte chunk: 64 rounds, then add into the chaining state. -/
def md5Chunk (chunk : List Nat) (st : MD5State) : MD5State :=
  let r := (List.range 64).foldl (md5Round chunk) st
  { a := (st.a + r.a) % 4294967296, b := (st.b + r.b) % 4294967296,
    c := (st.c + r.c) % 4294967296, d := (st.d + r.d) % 4294967296 }

/-- Fold `md5Chunk` over consecutive 64-byte chunks. -/
def md5Chunks (bytes : List Nat) (st : MD5State) : MD5State :=
  if _h : bytes.length < 64 then st
  else md5Chunks (bytes.drop 64) (md5Chunk (bytes.take 64) st)
termination_by bytes.length
decreasing_by simp [List.length_drop]; omega

/-- MD5 padding: `0x80`, zeros to 56 mod 64, then the bit length as eight
little-endian bytes. -/
def md5Pad (bytes : List Nat) : List Nat :=
  let len := bytes.length
  let zeros := (64 + 56 - (len + 1) % 64) % 64
  let bitLen := (8 * len) % 18446744073709551616
  bytes ++ [128] ++ List.replicate zeros 0 ++
    [bitLen % 256, bitLen / 256 % 256, bitLen / 65536 % 256,
     bitLen / 16777216 % 256, bitLen / 4294967296 % 256,
     bitLen / 1099511627776 % 256, bitLen / 281474976710656 % 256,
     bitLen / 72057594037927936 % 256]

/-- A 32-bit word as four little-endian bytes. -/
def wordLEBytes (x : Nat) : List Nat :=
  [x % 256, x / 256 % 256, x / 65536 % 256, x / 16777216 % 256]

/-- The 16-byte MD5 digest of a byte string. -/
def md5Digest (bytes : List Nat) : List Nat :=
  let st := md5Chunks (md5Pad bytes)
    { a := 0x67452301, b := 0xefcdab89, c := 0x98badcfe, d := 0x10325476 }
  wordLEBytes st.a ++ wordLEBytes st.b ++ wordLEBytes st.c ++ wordLEBytes st.d

/-- The sixteen lowercase hex digits, as `%x` renders them. -/
def hexDigitChar (n : Nat) : Char :=
  "0123456789abcdef".toList.getD n '0'

/-- One byte as two lowercase hex characters. -/
def byteHexChars (b : Nat) : List Char :=
  [hexDigitChar (b / 16 % 16), hexDigitChar (b % 16)]

/-- Lowercase hex rendering of a byte string (`hexdigest()`). -/
def bytesToHex (bs : List Nat) : String :=
  String.mk (bs.foldr (fun b acc => byteHexChars b ++ acc) [])

/-- `hashlib.md5(data.encode()).hexdigest()`. -/
def md5Hexdigest (s : String) : String :=
  bytesToHex (md5Digest (utf8Bytes s))

/-- The parameter dict built for fingerprinting (main.py lines 184–188 and
412–416): exactly extraction strategy, chunking strategy and the screenshot
flag — no other request field enters it. -/
structure CacheParams where
  extraction : String
  chunking : String
  screenshot : Bool

/-- `json.dumps(params, sort_keys=True)` for the three-key parameter dict:
keys in sorted order (`chunking`, `extraction`, `screenshot`), default
separators, JSON booleans. -/
def jsonDumpsParams (p : CacheParams) : String :=
  "\x7b\"chunking\": \"" ++ p.chunking ++ "\", \"extraction\": \"" ++
    p.extraction ++ "\", \"screenshot\": " ++
    (if p.screenshot then "true" else "false") ++ "\x7d"

/-- `generate_cache_key` (main.py lines 175–178): MD5 of
`f"{url}:{json.dumps(params, sort_keys=True)}"`, hex, with the `crawl:`
namespace tag. -/
def generate_cache_key (url : String) (params : CacheParams) : String :=
  "crawl:" ++ md5Hexdigest (url ++ ":" ++ jsonDumpsParams params)

/-- The cache key `perform_crawl` computes for a request
(main.py lines 184–189): the fingerprint of URL, extraction strategy,
chunking strategy and screenshot flag. -/
def perform_crawl_cache_key (req : CrawlRequest) : String :=
  generate_cache_key req.url
    { extraction := req.extraction_strategy,
      chunking := req.chunking_strategy,
      screenshot := req.screenshot }

/-! ## The cache store (Redis wrapper, main.py lines 147–173, 445–463) -/

/-- The observable condition of the cache store at a call:
`absent` — the startup ping failed, so `redis_client` is `None`;
`reachable` — a connected client and the store's current contents
(entries are key, serialized value, TTL);
`failing` — a client handle exists but the store is unreachable at call
time, so every operation on it raises. -/
inductive RedisState where
  | absent
  | reachable (store : List (String × String × Nat))
  | failing

/-- `get_cached_result` (main.py lines 147–159): `None` (miss) when there is
no client; on a raising call the exception is swallowed and `None` is
returned; otherwise the stored value. -/
def get_cached_result : RedisState → String → Option String
  | .absent, _ => Option.none
  | .failing, _ => Option.none
  | .reachable store, key => (store.find? (fun p => p.1 == key)).map (fun p => p.2.1)

/-- `set_cached_result` (main.py lines 161–173, default TTL 86400): no-op
without a client; a raising `setex` is swallowed (store unchanged);
otherwise the binding is written. -/
def set_cached_result (st : RedisState) (key val : String) (ttl : Nat) : RedisState :=
  match st with
  | .absent => .absent
  | .failing => .failing
  | .reachable store => .reachable ((key, val, ttl) :: store)

/-- The `DELETE /cache/{job_id}` endpoint `clear_cache`
(main.py lines 445–463): HTTP 503 when there is no client; a raising
`delete` call is re-raised as HTTP 500; otherwise
`{status: success|not_found, job_id}`. -/
def clear_cache : RedisState → String → Except Nat (String × String)
  | .absent, _ => .error 503
  | .failing, _ => .error 500
  | .reachable store, job_id =>
    let deleted := (store.find? (fun p => p.1 == "crawl:" ++ job_id)).isSome
    .ok ((if deleted then "success" else "not_found"), job_id)

/-- The `GET /result/{job_id}` endpoint (main.py lines 430–443): looks up
`f"crawl:{job_id}"` in the cache, 404 on miss. -/
def get_result (st : RedisState) (job_id : String) : Except Nat String :=
  match get_cached_result st ("crawl:" ++ job_id) with
  | Option.some r => .ok r
  | Option.none => .error 404

/-! ## The batch dispatcher (batch_crawl, main.py lines 386–428) -/

/-- `BatchCrawlRequest` (main.py lines 47–52): the only fields the batch
interface carries, with their declared defaults. -/
structure BatchCrawlRequest where
  urls : List String
  extraction_strategy : String := "auto"
  chunking_strategy : String := "markdown"
  screenshot : Bool := false
  timeout : Nat := 30

/-- The accepted-batch response (main.py lines 423–428) together with the
background tasks scheduled while building it (line 421). -/
structure BatchAccepted where
  status : String
  total_urls : Nat
  jobs : List (String × String)
  scheduled : List CrawlRequest

/-- `batch_crawl` (main.py lines 386–428): more than 50 URLs is rejected
with HTTP 400 before anything is scheduled; otherwise, per URL, a
`CrawlRequest` is built from the shared parameters (all other fields
defaulted), a job ID is computed by `generate_cache_key` on the shared
parameters, and one background `perform_crawl` is scheduled. -/
def batch_crawl (req : BatchCrawlRequest) : Except Nat BatchAccepted :=
  if req.urls.length > 50 then .error 400
  else .ok
    { status := "processing"
      total_urls := req.urls.length
      jobs := req.urls.map (fun u =>
        (u, generate_cache_key u
          { extraction := req.extraction_strategy,
            chunking := req.chunking_strategy,
            screenshot := req.screenshot }))
      scheduled := req.urls.map (fun u =>
        { url := u,
          extraction_strategy := req.extraction_strategy,
          chunking_strategy := req.chunking_strategy,
          screenshot := req.screenshot,
          timeout := req.timeout }) }

/-! ## The text compressor (proxy-service/compressor.py) -/

/-- Module-level configuration read at import (compressor.py lines 8–13).
Import never validates the credential. -/
structure CompressorConfig where
  OPENROUTER_API_KEY : Option String
  OPENROUTER_MODEL : String
  COMPRESSION_PROMPT : String

/-- Reading the three environment variables at module import
(compressor.py lines 8–13): `os.getenv` with defaults for model and prompt,
no default for the credential.  Total — import cannot fail. -/
def compressorModuleLoad (env : String → Option String) : CompressorConfig :=
  { OPENROUTER_API_KEY := env "OPENROUTER_API_KEY"
    OPENROUTER_MODEL := (env "OPENROUTER_MODEL").getD "google/gemini-2.0-flash-lite-001"
    COMPRESSION_PROMPT := (env "COMPRESSION_PROMPT").getD
      "Process the following content according to the user\x27s instruction. Preserve key facts, names, numbers, and actionable information. Output only the result, no preamble." }

/-- Python truthiness of an optional environment string (`not KEY` is true
for an unset variable and for the empty string). -/
def envTruthy : Option String → Bool
  | Option.none => false
  | Option.some s => !s.isEmpty

/-- The constructed completion-API client handle. -/
structure ApiClient where
  base_url : String
  api_key : String

/-- `get_client` (compressor.py lines 16–22): raises `ValueError` when the
credential is unset or empty, otherwise builds the client. -/
def get_client (cfg : CompressorConfig) : Except String ApiClient :=
  if envTruthy cfg.OPENROUTER_API_KEY then
    .ok { base_url := "https://openrouter.ai/api/v1",
          api_key := cfg.OPENROUTER_API_KEY.getD "" }
  else .error "OPENROUTER_API_KEY environment variable not set"

/-- `compress` (compressor.py lines 25–56).  The external completion API is
an oracle `api : model → system prompt → user message → completion`; the
second component counts requests actually sent to it.  On a missing
credential `get_client` raises before any request; otherwise exactly one
request is sent and `response.choices[0].message.content` — the oracle's
output — is returned verbatim. -/
def compress (cfg : CompressorConfig) (api : String → String → String → String)
    (content : String) (instruction : String) : Except String String × Nat :=
  match get_client cfg with
  | .error e => (.error e, 0)
  | .ok _ =>
    (.ok (api cfg.OPENROUTER_MODEL cfg.COMPRESSION_PROMPT
      ("Instruction: " ++ instruction ++ "\n\nContent:\n" ++ content)), 1)

/-! ## Digest shape lemmas -/

theorem stringMk_length (cs : List Char) : (String.mk cs).length = cs.length := rfl

theorem md5Digest_length (bs : List Nat) : (md5Digest bs).length = 16 := by
  simp [md5Digest, wordLEBytes]

theorem bytesToHex_length (bs : List Nat) : (bytesToHex bs).length = 2 * bs.length := by
  induction bs with
  | nil => rfl
  | cons b rest ih =>
    simp only [bytesToHex, stringMk_length, List.foldr] at *
    simp [byteHexChars] at *
    omega

theorem hexDigitChar_mem (n : Nat) : hexDigitChar n ∈ "0123456789abcdef".toList := by
  unfold hexDigitChar
  by_cases h : n < ("0123456789abcdef".toList).length
  · rw [List.getD_eq_getElem _ _ h]
    exact List.getElem_mem _
  · rw [List.getD_eq_default _ _ (Nat.le_of_not_lt h)]
    decide

theorem bytesToHex_chars (bs : List Nat) :
    ∀ c ∈ (bytesToHex bs).toList, c ∈ "0123456789abcdef".toList := by
  induction bs with
  | nil => intro c hc; cases hc
  | cons b rest ih =>
    intro c hc
    simp only [bytesToHex, String.toList] at hc ih ⊢
    simp [byteHexChars] at hc
    rcases hc with h | h | h
    · exact h ▸ hexDigitChar_mem _
    · exact h ▸ hexDigitChar_mem _
    · exact ih c (by simpa using h)

theorem md5Hexdigest_length (s : String) : (md5Hexdigest s).length = 32 := by
  unfold md5Hexdigest
  rw [bytesToHex_length, md5Digest_length]

/-! ## Claims -/

/-- Claim C1.  The batch dispatcher does return, for each URL, the job ID
equal to the fingerprint of (URL, shared extraction, shared chunking, shared
screenshot) — which is exactly the key the background crawl stores its
result under.  But `GET /result/{job_id}` looks up `f"crawl:{job_id}"`,
while the returned job ID already carries the `crawl:` tag, so the key the
retrieval endpoint looks up never equals the key the result is stored
under: querying with the exact returned job ID misses (404) even after the
result has been cached.  The code contradicts its own documentation
("Use job_id to retrieve results from cache"). -/
theorem C1_result_lookup_misses_stored_key (url : String) (p : CacheParams)
    (v : String) (ttl : Nat) :
    (batch_crawl ⟨[url], p.extraction, p.chunking, p.screenshot, 30⟩).toOption.map
      (fun b => b.jobs) = Option.some [(url, generate_cache_key url p)] ∧
    perform_crawl_cache_key
        ⟨url, p.extraction, p.chunking, p.screenshot, Option.none, 30,
          Option.none, Option.none, 10⟩ =
      generate_cache_key url p ∧
    "crawl:" ++ generate_cache_key url p ≠ generate_cache_key url p ∧
    get_result (set_cached_result (.reachable []) (generate_cache_key url p) v ttl)
        (generate_cache_key url p) = .error 404 := by
  refine ⟨rfl, rfl, ?_, ?_⟩
  · intro h
    have hl := congrArg String.length h
    rw [String.length_append] at hl
    simp at hl
    exact absurd hl (by decide)
  · have hne : (generate_cache_key url p == "crawl:" ++ generate_cache_key url p) = false := by
      rw [beq_eq_false_iff_ne]
      intro h
      have hl := congrArg String.length h
      rw [String.length_append] at hl
      simp at hl
      exact absurd hl (by decide)
    simp [get_result, set_cached_result, get_cached_result, List.find?, hne]

/-- Claim C2.  Fingerprints of two requests agreeing on URL, extraction
strategy, chunking strategy and screenshot flag coincide, whatever their
timeout, wait-for selector, injected script, CSS selector and word-count
threshold; the fingerprint is a pure function of those four fields (the
embedding is a Lean function, so identical inputs trivially give identical
outputs), and its value is the tag `crawl:` followed by a 32-character
lowercase-hex digest. -/
theorem C2_fingerprint_shape (r1 r2 : CrawlRequest)
    (hu : r1.url = r2.url)
    (he : r1.extraction_strategy = r2.extraction_strategy)
    (hc : r1.chunking_strategy = r2.chunking_strategy)
    (hs : r1.screenshot = r2.screenshot) :
    perform_crawl_cache_key r1 = perform_crawl_cache_key r2 ∧
    ∃ d : String, perform_crawl_cache_key r1 = "crawl:" ++ d ∧ d.length = 32 ∧
      ∀ c ∈ d.toList, c ∈ "0123456789abcdef".toList := by
  constructor
  · unfold perform_crawl_cache_key
    rw [hu, he, hc, hs]
  · refine ⟨md5Hexdigest (r1.url ++ ":" ++ jsonDumpsParams
      { extraction := r1.extraction_strategy,
        chunking := r1.chunking_strategy,
        screenshot := r1.screenshot }), rfl, md5Hexdigest_length _, ?_⟩
    exact bytesToHex_chars _

/-- Witness for C2: two concrete requests for the same URL that differ in
timeout, wait-for, injected script, CSS selector and word-count threshold
share one fingerprint of the stated shape. -/
theorem C2_witness :
    perform_crawl_cache_key { url := "http://example.com/" } =
      perform_crawl_cache_key
        { url := "http://example.com/", timeout := 120,
          wait_for := Option.some "#main",
          js_code := Option.some "window.scrollTo(0, 9)",
          css_selector := Option.some ".content",
          word_count_threshold := 99 } ∧
    ∃ d : String,
      perform_crawl_cache_key { url := "http://example.com/" } = "crawl:" ++ d ∧
      d.length = 32 ∧ ∀ c ∈ d.toList, c ∈ "0123456789abcdef".toList :=
  C2_fingerprint_shape _ _ rfl rfl rfl rfl

/-- The value of the first candidate key whose value is truthy — what the
Python `or`-chain over `href`, `url`, `link`, `src` actually selects.  A key
that is present but bound to a falsy value (`""`, `None`, `0`, …) is
skipped. -/
def firstTruthyKey (es : List (String × PyVal)) : List String → Option PyVal
  | [] => Option.none
  | k :: ks =>
    if (dictGet es k).truthy then Option.some (dictGet es k)
    else firstTruthyKey es ks

/-- Counterexample to claim C3.  The claim says a mapping yields the value
of the first PRESENT key among `href`, `url`, `link`, `src` coerced to
string; on `\x7b"href": "", "url": "http://b"\x7d` that reading yields `""`
(the present `href` value), but the code's `or`-chain skips the falsy
`href` value and yields `"http://b"`. -/
theorem C3_counterexample :
    freshCoerce (.dict [("href", .str ""), ("url", .str "http://b")]) = "http://b" ∧
    ("http://b" : String) ≠ "" := by
  exact ⟨rfl, by decide⟩

/-- Claim C3 as amended.  Normalization keeps plain strings as-is; a mapping
yields the value of the first key among `href`, `url`, `link`, `src` whose
value is TRUTHY, coerced to string, and falls back to the textual
representation of the whole mapping when no candidate key has a truthy
value; no element is ever dropped (the output has one string per input
element — the functions are total, so nothing raises); and the claim's
concrete four-element example normalizes exactly as stated. -/
theorem C3_amended :
    (∀ s : String, freshCoerce (.str s) = s) ∧
    (∀ es : List (String × PyVal),
      freshCoerce (.dict es) =
        match firstTruthyKey es ["href", "url", "link", "src"] with
        | Option.some u => pyStr u
        | Option.none => pyStr (.dict es)) ∧
    (∀ xs : List PyVal,
      (convert_links_to_strings (.list xs)).length = xs.length) ∧
    convert_links_to_strings (.list
        [.dict [("href", .str "http://a")], .dict [("url", .str "http://b")],
         .str "http://c", .dict [("unexpected", .str "x")]]) =
      ["http://a", "http://b", "http://c",
       "\x7b\x27unexpected\x27: \x27x\x27\x7d"] := by
  refine ⟨fun s => rfl, ?_, fun xs => by simp [convert_links_to_strings], rfl⟩
  intro es
  unfold freshCoerce linkUrlChain pyOr firstTruthyKey
  by_cases h1 : (dictGet es "href").truthy <;>
    by_cases h2 : (dictGet es "url").truthy <;>
      by_cases h3 : (dictGet es "link").truthy <;>
        by_cases h4 : (dictGet es "src").truthy <;>
          simp [h1, h2, h3, h4, firstTruthyKey]

theorem recoerce_on_strings (L : List String) :
    recoerceCachedLinks (L.map PyVal.str) = L.map PyVal.str := by
  unfold recoerceCachedLinks
  split
  · simp [List.map_map]
    exact fun a _ => rfl
  · rfl

theorem perform_crawl_hit_strings (c : CachedResult) (L : List String)
    (h : c.links = L.map PyVal.str) : perform_crawl_hit c = mkCrawlResponse c := by
  unfold perform_crawl_hit
  rw [h, recoerce_on_strings, ← h]

/-- Claim C4.  On a cache miss the stored entry's and the returned
response's timestamp are exactly the clock reading `now` taken at
normalization — for every request and every executor result, so no input
influences it.  Reading the stored entry back through the cache-hit
normalizer reproduces the fresh response in every field; in particular, on
a cache hit the timestamp is the stored one: `perform_crawl_hit` takes no
clock at all, and returns its input's timestamp unchanged for arbitrary
stored entries. -/
theorem C4_cached_roundtrip :
    (∀ (req : CrawlRequest) (res : ExecutorResult) (now : String),
      (perform_crawl_miss req res now).1.timestamp = now ∧
      (perform_crawl_miss req res now).2.timestamp = now ∧
      perform_crawl_hit (perform_crawl_miss req res now).1 =
        (perform_crawl_miss req res now).2) ∧
    ∀ c : CachedResult, (perform_crawl_hit c).timestamp = c.timestamp := by
  constructor
  · intro req res now
    exact ⟨rfl, rfl, perform_crawl_hit_strings _ (final_links_list res.links) rfl⟩
  · intro c
    rfl

/-- Key presence in a Python dict (`k in d`). -/
def hasKey (es : List (String × PyVal)) (k : String) : Bool :=
  (es.find? (fun p => p.1 == k)).isSome

/-- Does the value a media mapping selects (its `src` value if the key is
present, else its `url` value if present, else the always-string textual
fallback) happen to be a string?  Non-mappings trivially qualify. -/
def mediaSelectedIsStr (e : PyVal) : Bool :=
  match e with
  | .dict es =>
    match es.find? (fun p => p.1 == "src") with
    | Option.some p => p.2.isStr
    | Option.none =>
      match es.find? (fun p => p.1 == "url") with
      | Option.some p => p.2.isStr
      | Option.none => true
  | _ => true

theorem dictGetD_of_hasKey (es : List (String × PyVal)) (k : String) (d : PyVal)
    (h : hasKey es k = true) : dictGetD es k d = dictGet es k := by
  unfold hasKey at h
  unfold dictGetD dictGet
  cases hf : es.find? (fun p => p.1 == k) <;> simp [hf] at h ⊢

theorem dictGetD_of_not_hasKey (es : List (String × PyVal)) (k : String) (d : PyVal)
    (h : hasKey es k = false) : dictGetD es k d = d := by
  unfold hasKey at h
  unfold dictGetD
  cases hf : es.find? (fun p => p.1 == k) <;> simp [hf] at h ⊢

/-- Counterexample to claim C5.  The claim says every element of a
normalized media sequence is a plain string; but a mapping entry's selected
`src`/`url` value is appended as-is, without string coercion, so
`images = [\x7b"src": 5\x7d]` normalizes to the non-string `5`. -/
theorem C5_counterexample :
    mediaUrls (.dict [("images", .list [.dict [("src", .int 5)]])]) "images" =
      [.int 5] ∧
    (PyVal.int 5).isStr = false := ⟨rfl, rfl⟩

/-- Claim C5 as amended.  A non-mapping media entry is converted to a
string; a mapping entry yields its `src` value if that key is present, else
its `url` value if present (key presence, not truthiness, decides), else
the textual representation of the whole entry — but the selected value is
used as-is, with no string coercion, so elements of the normalized media
sequences are all plain strings only under the proviso that every mapping
entry's selected value is itself a string (the textual fallback always
is). -/
theorem C5_amended :
    (∀ v : PyVal, v.isDict = false → coerceMediaEntry v = .str (pyStr v)) ∧
    (∀ es : List (String × PyVal), hasKey es "src" = true →
      coerceMediaEntry (.dict es) = dictGet es "src") ∧
    (∀ es : List (String × PyVal), hasKey es "src" = false →
      hasKey es "url" = true →
      coerceMediaEntry (.dict es) = dictGet es "url") ∧
    (∀ es : List (String × PyVal), hasKey es "src" = false →
      hasKey es "url" = false →
      coerceMediaEntry (.dict es) = .str (pyStr (.dict es))) ∧
    (∀ xs : List PyVal, (∀ e ∈ xs, mediaSelectedIsStr e = true) →
      ∀ y ∈ xs.map coerceMediaEntry, y.isStr = true) := by
  refine ⟨?_, ?_, ?_, ?_, ?_⟩
  · intro v hv
    cases v <;> simp [PyVal.isDict] at hv ⊢ <;> rfl
  · intro es h
    show dictGetD es "src" (dictGetD es "url" (PyVal.str (pyStr (PyVal.dict es)))) =
      dictGet es "src"
    rw [dictGetD_of_hasKey _ _ _ h]
  · intro es h1 h2
    show dictGetD es "src" (dictGetD es "url" (PyVal.str (pyStr (PyVal.dict es)))) =
      dictGet es "url"
    rw [dictGetD_of_not_hasKey _ _ _ h1, dictGetD_of_hasKey _ _ _ h2]
  · intro es h1 h2
    show dictGetD es "src" (dictGetD es "url" (PyVal.str (pyStr (PyVal.dict es)))) =
      PyVal.str (pyStr (PyVal.dict es))
    rw [dictGetD_of_not_hasKey _ _ _ h1, dictGetD_of_not_hasKey _ _ _ h2]
  · intro xs h y hy
    rw [List.mem_map] at hy
    obtain ⟨e, he, rfl⟩ := hy
    have hs := h e he
    unfold mediaSelectedIsStr at hs
    unfold coerceMediaEntry dictGetD
    cases e with
    | dict es =>
      cases hf : es.find? (fun p => p.1 == "src") with
      | some p => simp [hf] at hs ⊢; exact hs
      | none =>
        simp [hf] at hs ⊢
        cases hg : es.find? (fun p => p.1 == "url") with
        | some q => simp [hg] at hs ⊢; exact hs
        | none => simp [hg, PyVal.isStr]
    | _ => rfl

/-- Witness for C5: each branch of the amended claim evaluated at a
concrete media entry, and an all-strings media list whose mapping entries
select string values. -/
theorem C5_witness :
    coerceMediaEntry (.str "http://img.png") = .str "http://img.png" ∧
    coerceMediaEntry (.dict [("src", .str "s.png"), ("url", .str "u.png")]) =
      dictGet [("src", .str "s.png"), ("url", .str "u.png")] "src" ∧
    coerceMediaEntry (.dict [("url", .str "u.png")]) =
      dictGet [("url", .str "u.png")] "url" ∧
    coerceMediaEntry (.dict [("alt", .str "x")]) =
      .str (pyStr (.dict [("alt", .str "x")])) ∧
    (coerceMediaEntry (.dict [("alt", .int 3)])).isStr = true :=
  ⟨C5_amended.1 _ rfl,
   C5_amended.2.1 _ (by decide),
   C5_amended.2.2.1 _ (by decide) (by decide),
   C5_amended.2.2.2.1 _ (by decide) (by decide),
   C5_amended.2.2.2.2
     [.str "a", .dict [("src", .str "s")], .dict [("alt", .int 3)]]
     (by decide) _
     (List.mem_map.mpr ⟨.dict [("alt", .int 3)], by simp, rfl⟩)⟩

/-- Counterexample to claim C6.  The claim says that with the store
unreachable at call time, the delete endpoint raises HTTP 503; but when a
client handle exists and the store fails at the call, the raised exception
is re-surfaced as HTTP 500, not 503. -/
theorem C6_counterexample :
    clear_cache .failing "somejob" = .error 500 ∧ (500 : Nat) ≠ 503 :=
  ⟨rfl, by decide⟩

/-- Claim C6 as amended.  With the store unreachable — whether the client
was never connected (`absent`) or a connected store fails at call time
(`failing`) — every cache get returns a miss and never raises, and every
cache set is a no-op and never raises; delete is the only cache operation
that surfaces unavailability, raising 503 when the client was never
connected and 500 when a connected store fails at the call. -/
theorem C6_amended :
    (∀ k, get_cached_result .absent k = Option.none) ∧
    (∀ k, get_cached_result .failing k = Option.none) ∧
    (∀ k v ttl, set_cached_result .absent k v ttl = .absent) ∧
    (∀ k v ttl, set_cached_result .failing k v ttl = .failing) ∧
    (∀ j, clear_cache .absent j = .error 503) ∧
    (∀ j, clear_cache .failing j = .error 500) :=
  ⟨fun _ => rfl, fun _ => rfl, fun _ _ _ => rfl, fun _ _ _ => rfl,
   fun _ => rfl, fun _ => rfl⟩

/-- Claim C7.  For an executor result whose links dict holds the internal
and external partitions, normalization produces exactly the per-element
coercion of the internal partition followed by the per-element coercion of
the external partition, in order, with the combined length. -/
theorem C7_links_order (internal external : List PyVal) :
    all_links (.dict [("internal", .list internal), ("external", .list external)]) =
      internal.map freshCoerce ++ external.map freshCoerce ∧
    (all_links (.dict [("internal", .list internal),
        ("external", .list external)])).length =
      internal.length + external.length := by
  have h : all_links (.dict [("internal", .list internal), ("external", .list external)]) =
      internal.map freshCoerce ++ external.map freshCoerce := by
    rcases internal with _ | ⟨x, xs⟩ <;> rcases external with _ | ⟨y, ys⟩ <;>
      simp [all_links, linkPartition, asDict, dictGetD, asPyList, pyOr,
        PyVal.truthy, List.find?]
  exact ⟨h, by rw [h]; simp⟩

/-- Claim C8.  A batch of exactly 50 URLs is accepted: the response carries
50 (url, job ID) entries and 50 background crawls are scheduled; a batch of
51 or more is rejected with HTTP 400 — the error return carries no jobs and
schedules nothing (the guard precedes the scheduling loop, so rejection
happens before any external call). -/
theorem C8_batch_boundary (req : BatchCrawlRequest) :
    (req.urls.length = 50 →
      ∃ b : BatchAccepted, batch_crawl req = .ok b ∧ b.jobs.length = 50 ∧
        b.scheduled.length = 50 ∧ b.total_urls = 50) ∧
    (51 ≤ req.urls.length → batch_crawl req = .error 400) := by
  constructor
  · intro h
    unfold batch_crawl
    rw [if_neg (by omega)]
    refine ⟨_, rfl, ?_, ?_, h⟩ <;> simp [h]
  · intro h
    unfold batch_crawl
    rw [if_pos (by omega)]

/-- Witness for C8: a concrete 50-URL batch is accepted with 50 jobs and a
concrete 51-URL batch is rejected with 400. -/
theorem C8_witness :
    (∃ b : BatchAccepted,
      batch_crawl { urls := List.replicate 50 "http://a.com/" } = .ok b ∧
      b.jobs.length = 50 ∧ b.scheduled.length = 50 ∧ b.total_urls = 50) ∧
    batch_crawl { urls := List.replicate 51 "http://a.com/" } = .error 400 :=
  ⟨(C8_batch_boundary _).1 (by simp), (C8_batch_boundary _).2 (by simp)⟩

/-- Claim C9.  Module import never validates the credential
(`compressorModuleLoad` is total); with no credential configured — unset or
empty — the compressor fails at its first attempted use with the
configuration error and zero requests sent to the completion API; with a
credential configured it sends exactly one request and returns the API's
completion verbatim. -/
theorem C9_compressor_credential (env : String → Option String)
    (api : String → String → String → String) (content instruction : String) :
    (envTruthy (env "OPENROUTER_API_KEY") = false →
      compress (compressorModuleLoad env) api content instruction =
        (.error "OPENROUTER_API_KEY environment variable not set", 0)) ∧
    (envTruthy (env "OPENROUTER_API_KEY") = true →
      compress (compressorModuleLoad env) api content instruction =
        (.ok (api (compressorModuleLoad env).OPENROUTER_MODEL
          (compressorModuleLoad env).COMPRESSION_PROMPT
          ("Instruction: " ++ instruction ++ "\n\nContent:\n" ++ content)), 1)) := by
  constructor <;> intro h <;>
    simp [compress, get_client, compressorModuleLoad, h]

/-- Witness for C9: with an empty environment the compressor returns the
configuration error having sent zero requests; with a key set it returns
the oracle's completion verbatim after one request. -/
theorem C9_witness :
    compress (compressorModuleLoad (fun _ => Option.none))
        (fun _ _ _ => "condensed") "long text" "summarize briefly" =
      (.error "OPENROUTER_API_KEY environment variable not set", 0) ∧
    compress (compressorModuleLoad (fun k =>
          if k = "OPENROUTER_API_KEY" then Option.some "sk-or-key" else Option.none))
        (fun _ _ _ => "condensed") "long text" "summarize briefly" =
      (.ok "condensed", 1) :=
  ⟨(C9_compressor_credential _ _ _ _).1 (by decide),
   (C9_compressor_credential _ _ _ _).2 (by decide)⟩

/-- The per-URL crawl requests an accepted batch schedules (empty when the
batch is rejected). -/
def batchScheduled (req : BatchCrawlRequest) : List CrawlRequest :=
  match batch_crawl req with
  | .ok b => b.scheduled
  | .error _ => []

/-- Claim C10.  Every crawl scheduled by an accepted batch runs with
word-count threshold 10, no wait-for selector, no injected script and no
CSS selector (the single-crawl defaults), carrying from the batch interface
exactly the URL, shared extraction strategy, shared chunking strategy,
shared screenshot flag and shared timeout. -/
theorem C10_batch_defaults (req : BatchCrawlRequest) :
    ∀ c ∈ batchScheduled req,
      c.word_count_threshold = 10 ∧ c.wait_for = Option.none ∧
      c.js_code = Option.none ∧ c.css_selector = Option.none ∧
      c.url ∈ req.urls ∧ c.extraction_strategy = req.extraction_strategy ∧
      c.chunking_strategy = req.chunking_strategy ∧
      c.screenshot = req.screenshot ∧ c.timeout = req.timeout := by
  intro c hc
  unfold batchScheduled batch_crawl at hc
  by_cases h : req.urls.length > 50
  · rw [if_pos h] at hc
    cases hc
  · rw [if_neg h] at hc
    simp only [List.mem_map] at hc
    obtain ⟨u, hu, rfl⟩ := hc
    exact ⟨rfl, rfl, rfl, rfl, hu, rfl, rfl, rfl, rfl⟩

/-- Witness for C10: the single crawl scheduled for a concrete one-URL
batch takes the defaults for every field the batch interface does not
carry. -/
theorem C10_witness :
    ({ url := "http://a.com/", screenshot := true } : CrawlRequest).word_count_threshold = 10 ∧
    ({ url := "http://a.com/", screenshot := true } : CrawlRequest).wait_for = Option.none ∧
    ({ url := "http://a.com/", screenshot := true } : CrawlRequest).js_code = Option.none ∧
    ({ url := "http://a.com/", screenshot := true } : CrawlRequest).css_selector = Option.none ∧
    ({ url := "http://a.com/", screenshot := true } : CrawlRequest).url ∈
      ({ urls := ["http://a.com/"], screenshot := true } : BatchCrawlRequest).urls ∧
    ({ url := "http://a.com/", screenshot := true } : CrawlRequest).extraction_strategy = "auto" ∧
    ({ url := "http://a.com/", screenshot := true } : CrawlRequest).chunking_strategy = "markdown" ∧
    ({ url := "http://a.com/", screenshot := true } : CrawlRequest).screenshot = true ∧
    ({ url := "http://a.com/", screenshot := true } : CrawlRequest).timeout = 30 :=
  C10_batch_defaults { urls := ["http://a.com/"], screenshot := true }
    { url := "http://a.com/", screenshot := true }
    (by simp [batchScheduled, batch_crawl])
